import Mathlib

/-!
Shallow embedding of the Before_you_trust scoring and abuse-control code:
the `update_entity_risk_score` and `update_incident_confidence` /
`calculate_verification_confidence` trigger functions from the SQL
migrations, the `checkRateLimit` helper from
`supabase/functions/_shared/rate-limit.ts`, the initial-confidence and
similarity-update logic of `supabase/functions/submit-incident/index.ts`,
the `determineRiskLevel` helper of the `ai-calculate-risk` edge function,
and the status handling of `supabase/functions/flag-incident/index.ts`.
SQL `DECIMAL` and JS number arithmetic are modelled over `ℚ`; timestamps
are integers (milliseconds).
-/

namespace BYT

inductive Severity
  | low
  | medium
  | high
  | critical
deriving DecidableEq, Repr

inductive Status
  | pending
  | verified
  | disputed
  | rejected
deriving DecidableEq, Repr

/-- One `incident_reports` row as read by the `update_entity_risk_score`
trigger: its severity, status, evidence count (the migration that adds
the evidence boost), and `created_at`. -/
structure RiskInput where
  severity : Severity
  status : Status
  evidence_count : ℕ
  created_at : ℤ
deriving DecidableEq, Repr

/-- `CASE severity WHEN 'critical' THEN 40 WHEN 'high' THEN 25
WHEN 'medium' THEN 15 WHEN 'low' THEN 5 END` from the trigger. -/
def severityPoints : Severity → ℚ
  | Severity.critical => 40
  | Severity.high => 25
  | Severity.medium => 15
  | Severity.low => 5

/-- `CASE WHEN status = 'verified' THEN 1.5 ELSE 1.0 END`. -/
def statusMultiplier (s : Status) : ℚ :=
  if s = Status.verified then 3 / 2 else 1

/-- `CASE WHEN evidence_count > 0 THEN 1.2 ELSE 1.0 END`. -/
def evidenceBoost (n : ℕ) : ℚ :=
  if 0 < n then 6 / 5 else 1

/-- The `COALESCE(SUM(...), 0)` severity query of the trigger: every row
of the entity contributes, with no filter on `status`. -/
def rawSeverity (l : List RiskInput) : ℚ :=
  (l.map (fun i =>
    severityPoints i.severity * statusMultiplier i.status *
      evidenceBoost i.evidence_count)).sum

/-- `v_severity_score := LEAST(v_severity_score, 100)`. -/
def severityScore (l : List RiskInput) : ℚ :=
  min (rawSeverity l) 100

/-- `v_risk_level := CASE WHEN v_severity_score >= 75 THEN 'critical' ...`
from the trigger. -/
def riskLevel (s : ℚ) : String :=
  if 75 ≤ s then "critical"
  else if 50 ≤ s then "high"
  else if 25 ≤ s then "moderate"
  else if 0 < s then "low"
  else "unknown"

/-- `determineRiskLevel` from the `ai-calculate-risk` edge function
(`score === 0` mapped to `unknown`, then `<= 25/50/75` buckets). -/
def determineRiskLevel (score : ℚ) : String :=
  if score = 0 then "unknown"
  else if score ≤ 25 then "low"
  else if score ≤ 50 then "moderate"
  else if score ≤ 75 then "high"
  else "critical"

/-- `COUNT(*)` over the entity's incident rows. -/
def totalIncidents (l : List RiskInput) : ℕ :=
  l.length

/-- `COUNT(*) FILTER (WHERE status = 'verified')`. -/
def verifiedIncidents (l : List RiskInput) : ℕ :=
  (l.filter (fun i => i.status = Status.verified)).length

/-- `MAX(created_at)` over the entity's incident rows. -/
def lastIncidentAt (l : List RiskInput) : Option ℤ :=
  l.foldr (fun i acc =>
    match acc with
    | none => some i.created_at
    | some m => some (max i.created_at m)) none

/-- The row upserted into `entity_risk_scores`. -/
structure RiskScoreRow where
  total_incidents : ℕ
  verified_incidents : ℕ
  severity_score : ℚ
  risk_level : String
  last_incident_at : Option ℤ
deriving DecidableEq, Repr

/-- The whole-row aggregate the `update_entity_risk_score` trigger
computes and upserts for the affected entity, as a function of that
entity's current `incident_reports` rows. -/
def update_entity_risk_score (l : List RiskInput) : RiskScoreRow :=
  { total_incidents := totalIncidents l
    verified_incidents := verifiedIncidents l
    severity_score := severityScore l
    risk_level := riskLevel (severityScore l)
    last_incident_at := lastIncidentAt l }

/-- One `incident_reports` row as read and updated by the confidence
recomputation: the two narrative fields and the cached derived pair. -/
structure IncidentRow where
  id : ℕ
  what_was_promised : Option String
  what_actually_happened : Option String
  verification_confidence : ℚ
  evidence_count : ℕ
deriving DecidableEq, Repr

/-- One `incident_evidence` row (the fields the triggers consult). -/
structure EvidenceRow where
  id : ℕ
  incident_id : ℕ
  is_verified : Bool
deriving DecidableEq, Repr

/-- The relational state the confidence triggers act on. -/
structure DB where
  incidents : List IncidentRow
  evidence : List EvidenceRow
deriving DecidableEq, Repr

/-- `COUNT(*) FROM incident_evidence WHERE incident_id = p`. -/
def dbEvidenceCount (db : DB) (iid : ℕ) : ℕ :=
  (db.evidence.filter (fun e => e.incident_id == iid)).length

/-- `COUNT(*) FILTER (WHERE is_verified = true)` for the incident. -/
def dbVerifiedEvidenceCount (db : DB) (iid : ℕ) : ℕ :=
  (db.evidence.filter (fun e => e.incident_id == iid && e.is_verified)).length

/-- `x IS NOT NULL AND x != ''` for an optional text field. -/
def optNonEmpty : Option String → Bool
  | some s => !(s == "")
  | none => false

/-- The `v_has_details` condition of `calculate_verification_confidence`:
either narrative field non-null and non-empty. -/
def rowHasDetails (i : IncidentRow) : Bool :=
  optNonEmpty i.what_was_promised || optNonEmpty i.what_actually_happened

/-- `SELECT ... INTO v_has_details FROM incident_reports WHERE id = p`
(a missing row leaves the variable NULL, which the `IF` treats as false). -/
def dbHasDetails (db : DB) (iid : ℕ) : Bool :=
  ((db.incidents.find? (fun i => i.id == iid)).map rowHasDetails).getD false

/-- The arithmetic core of `calculate_verification_confidence`: base 10,
plus `LEAST(evidence_count * 15, 50)`, plus `verified_evidence * 10`,
plus 10 when detailed, finally `LEAST(..., 100)`. -/
def confidenceArith (ec ve : ℕ) (has_details : Bool) : ℚ :=
  let c : ℚ := 10
  let c := c + min ((ec : ℚ) * 15) 50
  let c := c + (ve : ℚ) * 10
  let c := if has_details then c + 10 else c
  min c 100

/-- `public.calculate_verification_confidence(p_incident_id)`: reads the
evidence counts and the narrative flag from the store and combines them. -/
def calculate_verification_confidence (db : DB) (p_incident_id : ℕ) : ℚ :=
  confidenceArith (dbEvidenceCount db p_incident_id)
    (dbVerifiedEvidenceCount db p_incident_id) (dbHasDetails db p_incident_id)

/-- The clamped-sum formula as the spec states it (for the refinement
theorem of the confidence claim). -/
def confidenceSpec (ec ve : ℕ) (narrative : Bool) : ℚ :=
  min (10 + min ((ec : ℚ) * 15) 50 + (ve : ℚ) * 10 +
    (if narrative then 10 else 0)) 100

/-- `initialConfidence` from `submit-incident`: 20 with narrative detail
up front, 10 without. -/
def initialConfidence (hasDetails : Bool) : ℚ :=
  if hasDetails then 20 else 10

/-- `status: 'pending'` in the `submit-incident` insert. -/
def initialStatus : Status :=
  Status.pending

/-- The `update_incident_confidence` trigger body: resolve the affected
incident via `COALESCE(NEW.incident_id, OLD.incident_id)`, recompute the
confidence and the live evidence count from the post-mutation table, and
write both onto the incident row as whole values. -/
def update_incident_confidence (db : DB) (oldRow newRow : Option EvidenceRow) : DB :=
  match newRow.orElse (fun _ => oldRow) with
  | none => db
  | some e =>
    let target := e.incident_id
    let conf := calculate_verification_confidence db target
    let cnt := dbEvidenceCount db target
    { db with incidents := db.incidents.map (fun i =>
        if i.id == target then
          { i with verification_confidence := conf, evidence_count := cnt }
        else i) }

/-- `AFTER INSERT` firing of `on_evidence_change`: the row is already in
the table when the trigger recomputes. -/
def insertEvidence (db : DB) (e : EvidenceRow) : DB :=
  let db' : DB := { db with evidence := db.evidence ++ [e] }
  update_incident_confidence db' none (some e)

/-- `AFTER DELETE` firing of `on_evidence_change`: the row is gone when
the trigger recomputes; the incident is resolved from `OLD`. -/
def deleteEvidence (db : DB) (eid : ℕ) : DB :=
  match db.evidence.find? (fun e => e.id == eid) with
  | none => db
  | some r =>
    let db' : DB := { db with evidence := db.evidence.filter (fun e => !(e.id == eid)) }
    update_incident_confidence db' (some r) none

/-- `AFTER UPDATE` firing of `on_evidence_change`: the updated row is in
place when the trigger recomputes; the incident is resolved from `NEW`. -/
def updateEvidence (db : DB) (eid : ℕ) (f : EvidenceRow → EvidenceRow) : DB :=
  match db.evidence.find? (fun e => e.id == eid) with
  | none => db
  | some r =>
    let db' : DB := { db with evidence := db.evidence.map (fun e =>
      if e.id == eid then f e else e) }
    update_incident_confidence db' (some r) (some (f r))

/-- The per-action ceilings of `RATE_LIMITS` in `rate-limit.ts`. -/
inductive ActionType
  | incident_submission
  | entity_creation
  | ai_call
  | search
deriving DecidableEq, Repr

/-- `RATE_LIMITS` (requests per hour). -/
def RATE_LIMITS : ActionType → ℕ
  | ActionType.incident_submission => 10
  | ActionType.entity_creation => 20
  | ActionType.ai_call => 30
  | ActionType.search => 100

/-- `60 * 60 * 1000` milliseconds, the window and the reset offset. -/
def oneHourMs : ℤ := 60 * 60 * 1000

/-- The result record of `checkRateLimit`. -/
structure RateLimitResult where
  allowed : Bool
  remaining : ℤ
  resetAt : ℤ
deriving DecidableEq, Repr

/-- The ledger count query: rows for the fingerprint/action pair with
`created_at >= now - 1h` (timestamps in milliseconds). -/
def inWindowCount (events : List ℤ) (now : ℤ) : ℕ :=
  (events.filter (fun t => now - oneHourMs ≤ t)).length

/-- The tail of `checkRateLimit` after the count query returns: on a
storage error it fails open (allow, full ceiling, `now + 1h`); otherwise
`allowed = count < limit`, `remaining = max(0, limit - count)`,
`resetAt = now + 1h`. -/
def checkRateLimitCore (countResult : Except String ℕ) (now : ℤ) (limit : ℕ) :
    RateLimitResult :=
  match countResult with
  | Except.error _ =>
    { allowed := true, remaining := (limit : ℤ), resetAt := now + oneHourMs }
  | Except.ok count =>
    { allowed := decide (count < limit)
      remaining := max 0 ((limit : ℤ) - (count : ℤ))
      resetAt := now + oneHourMs }

/-- `checkRateLimit` on a readable ledger, as a function of the recorded
event timestamps for the fingerprint/action pair. -/
def checkRateLimit (events : List ℤ) (now : ℤ) (limit : ℕ) : RateLimitResult :=
  checkRateLimitCore (Except.ok (inWindowCount events now)) now limit

/-- The three actions accepted by `flag-incident`. -/
inductive FlagAction
  | dispute
  | flag_false
  | flag_duplicate
deriving DecidableEq, Repr

/-- The per-action success messages of `flag-incident`. -/
def actionMessage : FlagAction → String
  | FlagAction.dispute =>
    "Incident has been marked as disputed and will be reviewed by our team."
  | FlagAction.flag_false =>
    "Thank you for reporting. This incident will be reviewed for accuracy."
  | FlagAction.flag_duplicate =>
    "Thank you for reporting. We will check for duplicates."

/-- An `incident_reports` row as touched by `flag-incident` (the fields
it reads or writes, plus `verification_confidence` standing for the rest
of the row for the frame property). -/
structure IncidentRec where
  id : ℕ
  status : Status
  verification_confidence : ℚ
  updated_at : ℤ
deriving DecidableEq, Repr

/-- The store mutation of `flag-incident` after validation: fetch the
incident, refuse if absent or already `rejected`; the `dispute` action
updates `status` to `disputed` (and `updated_at`), the two flag actions
write nothing; the reply carries the per-action message. -/
def flagIncident (db : List IncidentRec) (iid : ℕ) (action : FlagAction)
    (now : ℤ) : Except String (List IncidentRec × String) :=
  match db.find? (fun i => i.id == iid) with
  | none => Except.error "Incident not found"
  | some inc =>
    if inc.status = Status.rejected then
      Except.error "This incident has already been rejected"
    else
      let db' := if action = FlagAction.dispute then
          db.map (fun i =>
            if i.id == iid then
              { i with status := Status.disputed, updated_at := now }
            else i)
        else db
      Except.ok (db', actionMessage action)

/-- The similarity write-back of `submit-incident`: when duplicate
detection reports similar incidents, the stored confidence is overwritten
with `Math.max(initialConfidence - Math.floor(highestSimilarity / 10), 5)`. -/
def similarityAdjustedConfidence (initial : ℚ) (highestSimilarity : ℚ) : ℚ :=
  max (initial - (⌊highestSimilarity / 10⌋ : ℤ)) 5

theorem status_disputed_ne_verified : Status.disputed ≠ Status.verified := by
  decide

/-- C1 counterexample: for an entity whose incident list is exactly one
`critical`, `verified` incident (dated today, no evidence), the
`update_entity_risk_score` trigger recomputes `severity_score` as
`40 × 1.5 = 60`, not the 73 the four-factor claim predicts. -/
theorem risk_trigger_one_critical_verified_not_73 :
    (update_entity_risk_score
      [⟨Severity.critical, Status.verified, 0, 0⟩]).severity_score = 60 ∧
    (update_entity_risk_score
      [⟨Severity.critical, Status.verified, 0, 0⟩]).severity_score ≠ 73 := by
  have h : (update_entity_risk_score
      [⟨Severity.critical, Status.verified, 0, 0⟩]).severity_score = 60 := by
    norm_num [update_entity_risk_score, severityScore, rawSeverity, severityPoints,
      statusMultiplier, evidenceBoost, min_def]
  exact ⟨h, by rw [h]; norm_num⟩

/-- C1 amended: the stored entity risk score is recomputed by the
trigger's additive severity-points model (low 5 / medium 15 / high 25 /
critical 40, × 1.5 when verified, × 1.2 when evidence is attached, capped
at 100), not the four-factor model; for one `critical`, `verified`
incident the upserted row is 1 total, 1 verified, `severity_score` 60,
and `risk_level` "high" (that part of the claim survives). -/
theorem risk_trigger_additive_model_one_critical_verified :
    update_entity_risk_score [⟨Severity.critical, Status.verified, 0, 0⟩] =
      { total_incidents := 1
        verified_incidents := 1
        severity_score := 60
        risk_level := "high"
        last_incident_at := some 0 } := by
  norm_num [update_entity_risk_score, severityScore, rawSeverity, severityPoints,
    statusMultiplier, evidenceBoost, riskLevel, totalIncidents, verifiedIncidents,
    lastIncidentAt, min_def]

/-- C2 counterexample: the trigger's aggregate has no status filter, so
inserting a `disputed` incident for an entity does change the stored
`severity_score` (60 becomes 65 here) and is counted in
`total_incidents`. -/
theorem disputed_incident_changes_severity_score :
    (update_entity_risk_score
      [⟨Severity.critical, Status.verified, 0, 0⟩,
       ⟨Severity.low, Status.disputed, 0, 5⟩]).severity_score = 65 ∧
    (update_entity_risk_score
      [⟨Severity.critical, Status.verified, 0, 0⟩]).severity_score = 60 ∧
    (update_entity_risk_score
      [⟨Severity.critical, Status.verified, 0, 0⟩,
       ⟨Severity.low, Status.disputed, 0, 5⟩]).severity_score ≠
      (update_entity_risk_score
        [⟨Severity.critical, Status.verified, 0, 0⟩]).severity_score ∧
    (update_entity_risk_score
      [⟨Severity.critical, Status.verified, 0, 0⟩,
       ⟨Severity.low, Status.disputed, 0, 5⟩]).total_incidents = 2 := by
  have h65 : (update_entity_risk_score
      [⟨Severity.critical, Status.verified, 0, 0⟩,
       ⟨Severity.low, Status.disputed, 0, 5⟩]).severity_score = 65 := by
    norm_num [update_entity_risk_score, severityScore, rawSeverity, severityPoints,
      statusMultiplier, evidenceBoost, min_def, status_disputed_ne_verified]
  have h60 : (update_entity_risk_score
      [⟨Severity.critical, Status.verified, 0, 0⟩]).severity_score = 60 := by
    norm_num [update_entity_risk_score, severityScore, rawSeverity, severityPoints,
      statusMultiplier, evidenceBoost, min_def]
  refine ⟨h65, h60, by rw [h65, h60]; norm_num, rfl⟩

/-- C2 amended: every incident participates in the trigger's recomputed
aggregate regardless of status: a `disputed` (or `rejected`) incident
adds its severity points (× evidence boost, × status multiplier 1) to
the uncapped severity sum and to `total_incidents`, and only `verified`
incidents are counted in `verified_incidents`. -/
theorem all_statuses_contribute_to_risk_aggregate (l : List RiskInput)
    (d : RiskInput)
    (h : d.status = Status.disputed ∨ d.status = Status.rejected) :
    rawSeverity (l ++ [d]) =
      rawSeverity l + severityPoints d.severity * evidenceBoost d.evidence_count ∧
    totalIncidents (l ++ [d]) = totalIncidents l + 1 ∧
    verifiedIncidents (l ++ [d]) = verifiedIncidents l := by
  rcases h with h | h <;>
    simp [rawSeverity, totalIncidents, verifiedIncidents, statusMultiplier, h,
      List.filter_append, mul_one, mul_comm]

/-- Witness for the amended C2 statement at a concrete entity: one
verified critical incident plus a newly inserted disputed low one. -/
theorem all_statuses_contribute_witness :
    rawSeverity ([⟨Severity.critical, Status.verified, 0, 0⟩] ++
        [⟨Severity.low, Status.disputed, 0, 5⟩]) =
      rawSeverity [⟨Severity.critical, Status.verified, 0, 0⟩] +
        severityPoints Severity.low * evidenceBoost 0 ∧
    totalIncidents ([⟨Severity.critical, Status.verified, 0, 0⟩] ++
        [⟨Severity.low, Status.disputed, 0, 5⟩]) =
      totalIncidents [⟨Severity.critical, Status.verified, 0, 0⟩] + 1 ∧
    verifiedIncidents ([⟨Severity.critical, Status.verified, 0, 0⟩] ++
        [⟨Severity.low, Status.disputed, 0, 5⟩]) =
      verifiedIncidents [⟨Severity.critical, Status.verified, 0, 0⟩] :=
  all_statuses_contribute_to_risk_aggregate
    [⟨Severity.critical, Status.verified, 0, 0⟩]
    ⟨Severity.low, Status.disputed, 0, 5⟩ (Or.inl rfl)

/-- C3 counterexample: the trigger's `CASE` puts the boundary scores in
the upper bucket: a stored `severity_score` of 25 maps to "moderate"
(the claim says "low"), 50 to "high", 75 to "critical". -/
theorem risk_level_boundaries_upper_bucket :
    riskLevel 25 = "moderate" ∧ riskLevel 50 = "high" ∧
    riskLevel 75 = "critical" ∧ riskLevel 25 ≠ "low" := by
  have h25 : riskLevel 25 = "moderate" := by norm_num [riskLevel]
  refine ⟨h25, by norm_num [riskLevel], by norm_num [riskLevel], ?_⟩
  rw [h25]
  decide

/-- C3 amended: the trigger's threshold map assigns the boundaries to the
upper bucket (`0 → unknown`, `(0,25) → low`, `[25,50) → moderate`,
`[50,75) → high`, `[75,∞) → critical`); the claim's left-open map with
`s=25 → low`, `s=50 → moderate`, `s=75 → high` is implemented only by
`determineRiskLevel` in the `ai-calculate-risk` edge function. -/
theorem risk_level_threshold_map (s : ℚ) :
    (s = 0 → riskLevel s = "unknown") ∧
    (0 < s → s < 25 → riskLevel s = "low") ∧
    (25 ≤ s → s < 50 → riskLevel s = "moderate") ∧
    (50 ≤ s → s < 75 → riskLevel s = "high") ∧
    (75 ≤ s → riskLevel s = "critical") ∧
    (determineRiskLevel 0 = "unknown") ∧
    (0 < s → s ≤ 25 → determineRiskLevel s = "low") ∧
    (25 < s → s ≤ 50 → determineRiskLevel s = "moderate") ∧
    (50 < s → s ≤ 75 → determineRiskLevel s = "high") ∧
    (75 < s → determineRiskLevel s = "critical") := by
  unfold riskLevel determineRiskLevel
  refine ⟨?_, ?_, ?_, ?_, ?_, ?_, ?_, ?_, ?_, ?_⟩ <;>
    intros <;> split_ifs <;> first | rfl | (exfalso; first | linarith | simp_all)

/-- Witness for the amended C3 statement at concrete scores. -/
theorem risk_level_threshold_map_witness :
    riskLevel 30 = "moderate" ∧ determineRiskLevel 30 = "moderate" :=
  ⟨(risk_level_threshold_map 30).2.2.1 (by norm_num) (by norm_num),
   (risk_level_threshold_map 30).2.2.2.2.2.2.2.1 (by norm_num) (by norm_num)⟩

/-- C4: `calculate_verification_confidence` is exactly the spec's clamped
sum (base 10 + min(evidence×15, 50) + verified×10 + 10 for narrative,
clamped to 100); at creation `submit-incident` stores 10 without
narrative detail and 20 with it, agreeing with the formula at zero
evidence; and three evidence items (one verified) with narrative give 75. -/
theorem confidence_formula_and_values :
    (∀ (db : DB) (iid : ℕ),
      calculate_verification_confidence db iid =
        confidenceSpec (dbEvidenceCount db iid) (dbVerifiedEvidenceCount db iid)
          (dbHasDetails db iid)) ∧
    initialConfidence false = 10 ∧
    initialConfidence true = 20 ∧
    (∀ d : Bool, initialConfidence d = confidenceSpec 0 0 d) ∧
    confidenceSpec 3 1 true = 75 ∧
    calculate_verification_confidence
      ⟨[⟨1, some "promised", none, 20, 0⟩],
       [⟨1, 1, true⟩, ⟨2, 1, false⟩, ⟨3, 1, false⟩]⟩ 1 = 75 := by
  refine ⟨?_, by norm_num [initialConfidence], by norm_num [initialConfidence],
    ?_, ?_, ?_⟩
  · intro db iid
    cases h : dbHasDetails db iid <;>
      simp [calculate_verification_confidence, confidenceArith, confidenceSpec,
        h, add_assoc]
  · intro d
    cases d <;> norm_num [initialConfidence, confidenceSpec, min_def]
  · norm_num [confidenceSpec, min_def]
  · show confidenceArith 3 1 true = 75
    norm_num [confidenceArith, min_def]

/-- C5: `checkRateLimit` counts only ledger events inside the one-hour
window (an event more than one hour before the check is ignored), returns
`allowed = count < ceiling` and `remaining = max(0, ceiling - count)`, and
in particular after exactly `ceiling` in-window events the next check
returns `allowed = false` with `remaining = 0`. -/
theorem rate_limit_window_and_ceiling (events : List ℤ) (now : ℤ) (limit : ℕ) :
    (inWindowCount events now = limit →
      (checkRateLimit events now limit).allowed = false ∧
      (checkRateLimit events now limit).remaining = 0) ∧
    (∀ t : ℤ, t < now - oneHourMs →
      checkRateLimit (t :: events) now limit = checkRateLimit events now limit) ∧
    ((checkRateLimit events now limit).allowed = true ↔
      inWindowCount events now < limit) ∧
    (checkRateLimit events now limit).remaining =
      max 0 ((limit : ℤ) - (inWindowCount events now : ℤ)) := by
  refine ⟨?_, ?_, ?_, rfl⟩
  · intro h
    simp [checkRateLimit, checkRateLimitCore, h]
  · intro t ht
    have hnot : ¬(now - oneHourMs ≤ t) := not_le.mpr ht
    have hc : inWindowCount (t :: events) now = inWindowCount events now := by
      unfold inWindowCount
      rw [List.filter_cons, if_neg]
      simpa using hnot
    unfold checkRateLimit
    rw [hc]
  · simp [checkRateLimit, checkRateLimitCore]

/-- Witness for C5: a single in-window event against a ceiling of 1
exhausts the limit. -/
theorem rate_limit_window_and_ceiling_witness :
    (checkRateLimit [0] 0 1).allowed = false ∧
    (checkRateLimit [0] 0 1).remaining = 0 :=
  (rate_limit_window_and_ceiling [0] 0 1).1 (by decide)

/-- C6: when the ledger count query fails with a storage error,
`checkRateLimit` fails open: it returns `allowed = true` with the full
per-action ceiling as `remaining` (and the usual `now + 1h` reset),
instead of propagating the error or denying the request. -/
theorem rate_limit_fails_open (e : String) (now : ℤ) (a : ActionType) :
    checkRateLimitCore (Except.error e) now (RATE_LIMITS a) =
      { allowed := true
        remaining := (RATE_LIMITS a : ℤ)
        resetAt := now + oneHourMs } :=
  rfl

/-- C7 counterexample: the duplicate-detection write-back stores
`max(10 - floor(60/10), 5) = 5` for a no-narrative, no-evidence incident,
while `calculate_verification_confidence` for that incident is 10 — the
stored confidence is set from the AI similarity output, not from the
scorer. -/
theorem similarity_update_breaks_confidence_invariant :
    similarityAdjustedConfidence (initialConfidence false) 60 = 5 ∧
    calculate_verification_confidence ⟨[⟨1, none, none, 10, 0⟩], []⟩ 1 = 10 ∧
    (5 : ℚ) ≠ 10 := by
  refine ⟨?_, ?_, by norm_num⟩
  · norm_num [similarityAdjustedConfidence, initialConfidence, max_def]
  · show confidenceArith 0 0 false = 10
    norm_num [confidenceArith, min_def]

/-- C7 amended: the stored confidence equals the scorer's output only
outside the duplicate-detection path: whenever the AI duplicate detector
reports a highest similarity of at least 50 (the threshold at which
`submit-incident` keeps a match), the stored confidence of a fresh
no-narrative incident is overwritten with
`max(initialConfidence - floor(similarity/10), 5) = 5`, which differs
from the scorer's value 10 — the AI output is an input to the stored
confidence. -/
theorem similarity_overwrites_confidence (sim : ℚ) (h : 50 ≤ sim) :
    similarityAdjustedConfidence (initialConfidence false) sim = 5 ∧
    similarityAdjustedConfidence (initialConfidence false) sim ≠
      calculate_verification_confidence ⟨[⟨1, none, none, 10, 0⟩], []⟩ 1 := by
  have hfloor : (5 : ℤ) ≤ ⌊sim / 10⌋ := by
    rw [Int.le_floor]
    push_cast
    linarith
  have h1 : similarityAdjustedConfidence (initialConfidence false) sim = 5 := by
    have hle : (10 : ℚ) - (⌊sim / 10⌋ : ℤ) ≤ 5 := by
      have : (5 : ℚ) ≤ (⌊sim / 10⌋ : ℤ) := by exact_mod_cast hfloor
      linarith
    simp only [similarityAdjustedConfidence, initialConfidence, if_neg, Bool.false_eq_true]
    rw [if_neg (by simp)]
    exact max_eq_right hle
  have h2 : calculate_verification_confidence ⟨[⟨1, none, none, 10, 0⟩], []⟩ 1 = 10 := by
    show confidenceArith 0 0 false = 10
    norm_num [confidenceArith, min_def]
  refine ⟨h1, ?_⟩
  rw [h1, h2]
  norm_num

/-- Witness for the amended C7 statement at similarity 60. -/
theorem similarity_overwrites_confidence_witness :
    similarityAdjustedConfidence (initialConfidence false) 60 = 5 ∧
    similarityAdjustedConfidence (initialConfidence false) 60 ≠
      calculate_verification_confidence ⟨[⟨1, none, none, 10, 0⟩], []⟩ 1 :=
  similarity_overwrites_confidence 60 (by norm_num)

/-- C8 counterexample: `flag-incident` with action `dispute` updates a
`verified` incident to `disputed` (the only guard is against `rejected`),
so `verified` is not a terminal status. -/
theorem dispute_transitions_verified_incident :
    flagIncident [⟨1, Status.verified, 50, 0⟩] 1 FlagAction.dispute 7 =
      Except.ok ([⟨1, Status.disputed, 50, 7⟩],
        "Incident has been marked as disputed and will be reviewed by our team.") ∧
    Status.verified ≠ Status.disputed :=
  ⟨rfl, by decide⟩

/-- C8 amended: every incident is created `pending`; the core's only
status transition is the `dispute` action, which sets any incident that is
not `rejected` — `pending`, `verified`, or already `disputed` — to
`disputed`; `rejected` is terminal (flagging it errors out), and the two
flag actions never change the status. -/
theorem flag_incident_status_machine :
    (∀ (db : List IncidentRec) (iid : ℕ) (a : FlagAction) (now : ℤ)
      (inc : IncidentRec),
      db.find? (fun i => i.id == iid) = some inc →
      ((inc.status = Status.rejected →
         flagIncident db iid a now =
           Except.error "This incident has already been rejected") ∧
       (inc.status ≠ Status.rejected → a = FlagAction.dispute →
         flagIncident db iid a now = Except.ok
           (db.map (fun i =>
             if i.id == iid then
               { i with status := Status.disputed, updated_at := now }
             else i), actionMessage a)) ∧
       (inc.status ≠ Status.rejected → a ≠ FlagAction.dispute →
         flagIncident db iid a now = Except.ok (db, actionMessage a)))) ∧
    initialStatus = Status.pending := by
  refine ⟨?_, rfl⟩
  intro db iid a now inc hfind
  refine ⟨?_, ?_, ?_⟩
  · intro h
    simp [flagIncident, hfind, h]
  · intro h ha
    simp [flagIncident, hfind, h, ha]
  · intro h ha
    simp [flagIncident, hfind, h, ha]

/-- Witness for the amended C8 statement: disputing a verified incident. -/
theorem flag_incident_status_machine_witness :
    flagIncident [⟨1, Status.verified, 50, 0⟩] 1 FlagAction.dispute 7 =
      Except.ok (([⟨1, Status.verified, 50, 0⟩] : List IncidentRec).map
        (fun i => if i.id == 1 then
          { i with status := Status.disputed, updated_at := 7 } else i),
        actionMessage FlagAction.dispute) :=
  ((flag_incident_status_machine.1 [⟨1, Status.verified, 50, 0⟩] 1
    FlagAction.dispute 7 ⟨1, Status.verified, 50, 0⟩ (by decide)).2.1
    (by decide) rfl)

/-- C10: for `flag_false` or `flag_duplicate` on an existing, non-rejected
incident, `flag-incident` writes nothing — the store is returned exactly
as it was and only the per-action success message is produced — while
`dispute` is the only action that writes (setting the flagged incident's
status to `disputed`). -/
theorem flag_actions_write_nothing (db : List IncidentRec) (iid : ℕ)
    (now : ℤ) (a : FlagAction) (inc : IncidentRec)
    (hfind : db.find? (fun i => i.id == iid) = some inc)
    (hst : inc.status ≠ Status.rejected) :
    (a ≠ FlagAction.dispute →
      flagIncident db iid a now = Except.ok (db, actionMessage a)) ∧
    flagIncident db iid FlagAction.dispute now =
      Except.ok (db.map (fun i =>
        if i.id == iid then
          { i with status := Status.disputed, updated_at := now }
        else i), actionMessage FlagAction.dispute) := by
  constructor
  · intro ha
    simp [flagIncident, hfind, hst, ha]
  · simp [flagIncident, hfind, hst]

theorem find?_map_id_preserved (g : IncidentRow → IncidentRow)
    (hg : ∀ j, (g j).id = j.id) (l : List IncidentRow) (iid : ℕ) :
    (l.map g).find? (fun j => j.id == iid) =
      (l.find? (fun j => j.id == iid)).map g := by
  induction l with
  | nil => rfl
  | cons x xs ih =>
    by_cases h : (x.id == iid) = true
    · have h2 : ((g x).id == iid) = true := by rw [hg]; exact h
      rw [List.map_cons,
        List.find?_cons_of_pos (p := fun j : IncidentRow => j.id == iid) _ h2,
        List.find?_cons_of_pos (p := fun j : IncidentRow => j.id == iid) _ h,
        Option.map_some']
    · have h2 : ¬(((g x).id == iid) = true) := by rw [hg]; exact h
      rw [List.map_cons,
        List.find?_cons_of_neg (p := fun j : IncidentRow => j.id == iid) _ h2,
        List.find?_cons_of_neg (p := fun j : IncidentRow => j.id == iid) _ h, ih]

theorem dbHasDetails_after_write (db : DB) (ev : List EvidenceRow) (t : ℕ)
    (C : ℚ) (N : ℕ) (iid : ℕ) :
    dbHasDetails
      ⟨db.incidents.map (fun j =>
        if j.id == t then
          { j with verification_confidence := C, evidence_count := N }
        else j), ev⟩ iid = dbHasDetails db iid := by
  have hg : ∀ j : IncidentRow,
      ((fun j => if j.id == t then
        { j with verification_confidence := C, evidence_count := N }
      else j) j).id = j.id := by
    intro j
    by_cases h : (j.id == t) = true
    · simp only [if_pos h]
    · simp only [if_neg h]
  unfold dbHasDetails
  rw [find?_map_id_preserved _ hg]
  cases h : db.incidents.find? (fun j => j.id == iid) with
  | none => rfl
  | some j =>
    simp only [Option.map_some', Option.getD_some]
    by_cases h2 : (j.id == t) = true
    · rw [if_pos h2]
      rfl
    · rw [if_neg h2]

theorem calc_conf_after_write (db : DB) (t : ℕ) (C : ℚ) (N : ℕ) (iid : ℕ) :
    calculate_verification_confidence
      ⟨db.incidents.map (fun j =>
        if j.id == t then
          { j with verification_confidence := C, evidence_count := N }
        else j), db.evidence⟩ iid =
      calculate_verification_confidence db iid := by
  unfold calculate_verification_confidence
  rw [dbHasDetails_after_write db db.evidence t C N iid]
  rfl

theorem trigger_map_write (db : DB) (t : ℕ) (C : ℚ) (N : ℕ) :
    ∀ i ∈ db.incidents.map (fun j =>
      if j.id == t then
        { j with verification_confidence := C, evidence_count := N }
      else j),
      i.id = t → i.evidence_count = N ∧ i.verification_confidence = C := by
  intro i hi hid
  obtain ⟨j, hj, rfl⟩ := List.mem_map.mp hi
  by_cases h0 : (j.id == t) = true
  · simp [h0]
  · simp only [if_neg h0] at hid
    exact absurd (beq_iff_eq.mpr hid) h0

theorem trigger_post_all (db₁ : DB) (oldRow newRow : Option EvidenceRow)
    (e : EvidenceRow) (he : newRow.orElse (fun _ => oldRow) = some e) :
    ∀ i ∈ (update_incident_confidence db₁ oldRow newRow).incidents,
      i.id = e.incident_id →
      i.evidence_count =
        dbEvidenceCount (update_incident_confidence db₁ oldRow newRow)
          e.incident_id ∧
      i.verification_confidence =
        calculate_verification_confidence
          (update_incident_confidence db₁ oldRow newRow) e.incident_id := by
  intro i hi hid
  unfold update_incident_confidence at hi ⊢
  rw [he] at hi ⊢
  have h := trigger_map_write db₁ e.incident_id
    (calculate_verification_confidence db₁ e.incident_id)
    (dbEvidenceCount db₁ e.incident_id) i hi hid
  exact ⟨h.1, h.2.trans
    (calc_conf_after_write db₁ e.incident_id
      (calculate_verification_confidence db₁ e.incident_id)
      (dbEvidenceCount db₁ e.incident_id) e.incident_id).symm⟩

/-- C9: after each of the three Evidence mutations (insert, update,
delete), the incident resolved via `COALESCE(new, old)` holds a stored
`evidence_count` equal to the live count of its Evidence rows in the
post-mutation state and a `verification_confidence` freshly recomputed by
`calculate_verification_confidence` over that same post-mutation state,
written as whole values. -/
theorem evidence_mutation_recompute (db : DB) :
    (∀ e : EvidenceRow, ∀ i ∈ (insertEvidence db e).incidents,
      i.id = e.incident_id →
      i.evidence_count = dbEvidenceCount (insertEvidence db e) e.incident_id ∧
      i.verification_confidence =
        calculate_verification_confidence (insertEvidence db e)
          e.incident_id) ∧
    (∀ (eid : ℕ) (r : EvidenceRow),
      db.evidence.find? (fun ev => ev.id == eid) = some r →
      ∀ i ∈ (deleteEvidence db eid).incidents, i.id = r.incident_id →
      i.evidence_count = dbEvidenceCount (deleteEvidence db eid) r.incident_id ∧
      i.verification_confidence =
        calculate_verification_confidence (deleteEvidence db eid)
          r.incident_id) ∧
    (∀ (eid : ℕ) (f : EvidenceRow → EvidenceRow) (r : EvidenceRow),
      db.evidence.find? (fun ev => ev.id == eid) = some r →
      ∀ i ∈ (updateEvidence db eid f).incidents, i.id = (f r).incident_id →
      i.evidence_count =
        dbEvidenceCount (updateEvidence db eid f) (f r).incident_id ∧
      i.verification_confidence =
        calculate_verification_confidence (updateEvidence db eid f)
          (f r).incident_id) := by
  refine ⟨?_, ?_, ?_⟩
  · intro e i hi hid
    exact trigger_post_all ⟨db.incidents, db.evidence ++ [e]⟩ none (some e) e
      rfl i hi hid
  · intro eid r hr i hi hid
    have hdel : deleteEvidence db eid =
        update_incident_confidence
          ⟨db.incidents, db.evidence.filter (fun ev => !(ev.id == eid))⟩
          (some r) none := by
      unfold deleteEvidence
      rw [hr]
    rw [hdel] at hi ⊢
    exact trigger_post_all _ (some r) none r rfl i hi hid
  · intro eid f r hr i hi hid
    have hupd : updateEvidence db eid f =
        update_incident_confidence
          ⟨db.incidents, db.evidence.map (fun ev =>
            if ev.id == eid then f ev else ev)⟩
          (some r) (some (f r)) := by
      unfold updateEvidence
      rw [hr]
    rw [hupd] at hi ⊢
    exact trigger_post_all _ (some r) (some (f r)) (f r) rfl i hi hid

/-- Witness for C9: inserting one evidence row for an incident with
narrative detail leaves the incident holding count 1 and confidence 45,
both equal to the recomputation over the post-insert state. -/
theorem evidence_mutation_recompute_witness :
    ((⟨1, some "p", none, 45, 1⟩ : IncidentRow).evidence_count =
      dbEvidenceCount
        (insertEvidence ⟨[⟨1, some "p", none, 20, 0⟩], []⟩ ⟨5, 1, true⟩) 1) ∧
    (⟨1, some "p", none, 45, 1⟩ : IncidentRow).verification_confidence =
      calculate_verification_confidence
        (insertEvidence ⟨[⟨1, some "p", none, 20, 0⟩], []⟩ ⟨5, 1, true⟩) 1 :=
  (evidence_mutation_recompute ⟨[⟨1, some "p", none, 20, 0⟩], []⟩).1
    ⟨5, 1, true⟩ ⟨1, some "p", none, 45, 1⟩
    (by
      have h45 : confidenceArith 1 1 true = 45 := by
        norm_num [confidenceArith, min_def]
      show (⟨1, some "p", none, 45, 1⟩ : IncidentRow) ∈
        [(⟨1, some "p", none, confidenceArith 1 1 true, 1⟩ : IncidentRow)]
      rw [h45]
      exact List.mem_singleton.mpr rfl)
    rfl

/-- Witness for C10: `flag_false` on a pending incident leaves the store
untouched. -/
theorem flag_actions_write_nothing_witness :
    flagIncident [⟨1, Status.pending, 10, 0⟩] 1 FlagAction.flag_false 3 =
      Except.ok ([⟨1, Status.pending, 10, 0⟩],
        actionMessage FlagAction.flag_false) :=
  (flag_actions_write_nothing [⟨1, Status.pending, 10, 0⟩] 1 3
    FlagAction.flag_false ⟨1, Status.pending, 10, 0⟩ (by decide) (by decide)).1
    (by decide)

end BYT
